import Mathlib

/-!
Verification development for a read-only MySQL MCP server.

The definitions below are a shallow embedding of the TypeScript sources:
  * `src/utils/QuerySanitizer.ts`  — query admission/sanitization engine
  * the execute-query tool         — row-cap (LIMIT) appending logic
  * `src/utils/MySQLManager.ts`    — lazy pool initialization and rollback
  * `src/utils/CloudSQLProxy.ts`   — proxy subprocess startup/stop

Queries are modelled as `List Char` / `String`.  JavaScript string
operations are modelled per character over the ASCII fragment: `\s`,
`trim`, `toUpperCase` and case-insensitive regex matching are embedded
with explicit ASCII character sets, matching the JS behaviour on ASCII
input (the regex patterns themselves are all ASCII).
-/

namespace MysqlMcp

/-- ASCII fragment of the whitespace class used by JS `\s` and `trim`. -/
def isSpace (c : Char) : Bool :=
  c = ' ' || c = '\t' || c = '\n' || c = '\r' || c = '\x0b' || c = '\x0c'

/-- JS regex word character `[A-Za-z0-9_]` (used by `\b`). -/
def isWordChar (c : Char) : Bool :=
  ('A' ≤ c && c ≤ 'Z') || ('a' ≤ c && c ≤ 'z') || ('0' ≤ c && c ≤ '9') || c = '_'

/-- ASCII digit, JS regex `\d`. -/
def isDigit (c : Char) : Bool := '0' ≤ c && c ≤ '9'

/-- Uppercase a character list, modelling `String.prototype.toUpperCase`
on ASCII text. -/
def upper (l : List Char) : List Char := l.map Char.toUpper

/-- First `replace` pass of `removeComments`, as a one-pass scanner: in
normal mode (`false`), a `--` switches to skip mode; in skip mode
(`true`), characters are dropped up to (excluding) the next newline, so
each `--` together with the rest of its line is removed, globally. -/
def ddGo : List Char → Bool → List Char
  | [], _ => []
  | c :: r, true => if c = '\n' then c :: ddGo r false else ddGo r true
  | '-' :: '-' :: r, false => ddGo r true
  | c :: r, false => c :: ddGo r false

def stripDashDash (l : List Char) : List Char := ddGo l false

/-- Does the list contain the two-character block-comment closer? -/
def hasStarSlash : List Char → Bool
  | [] => false
  | '*' :: '/' :: _ => true
  | _ :: r => hasStarSlash r

/-- Second `replace` pass of `removeComments`: each block-comment opener
with a later closer is removed non-greedily up to and including the first
closer. An opener with no later closer anywhere is not a regex match and
the rest of the input is kept verbatim (no later opener can match then
either, since no closer follows it). -/
def sbGo : List Char → Bool → List Char
  | [], _ => []
  | '*' :: '/' :: r, true => sbGo r false
  | _ :: r, true => sbGo r true
  | '/' :: '*' :: r, false => if hasStarSlash r then sbGo r true else '/' :: '*' :: r
  | c :: r, false => c :: sbGo r false

def stripBlock (l : List Char) : List Char := sbGo l false

/-- Third `replace` pass of `removeComments`: each `#` together with the
rest of its line (up to, excluding, the next newline) is removed,
globally. Skip mode works as in `ddGo`. -/
def shGo : List Char → Bool → List Char
  | [], _ => []
  | c :: r, m =>
    if m then (if c = '\n' then c :: shGo r false else shGo r true)
    else if c = '#' then shGo r true
    else c :: shGo r false

def stripHash (l : List Char) : List Char := shGo l false

/-- Model of `QuerySanitizer.removeComments`: the three `replace` passes in source
order (`--` comments, then `/* */` comments, then `#` comments). -/
def removeComments (l : List Char) : List Char :=
  stripHash (stripBlock (stripDashDash l))

/-- JS `String.prototype.trim` on ASCII whitespace. -/
def trimL (l : List Char) : List Char :=
  ((l.dropWhile fun c => isSpace c).reverse.dropWhile fun c => isSpace c).reverse

/-- The comment-stripped, trimmed form of a query: `sanitizedQuery` before
classification. -/
def cleanTrim (q : String) : List Char := trimL (removeComments q.data)

/-- Skip leading whitespace: the `^\s*` prefix shared by every pattern. -/
def skipWs : List Char → List Char
  | [] => []
  | c :: r => if isSpace c then skipWs r else c :: r

/-- Exact prefix match of a keyword (the input is pre-uppercased, so this
models case-insensitive matching of an uppercase ASCII literal). -/
def prefixMatch : List Char → List Char → Bool
  | [], _ => true
  | _ :: _, [] => false
  | k :: ks, c :: cs => k == c && prefixMatch ks cs

/-- The head character is whitespace: models a trailing `\s+` in a pattern
(the rest of the input is unconstrained). -/
def wsPlus : List Char → Bool
  | [] => false
  | c :: _ => isSpace c

/-- After optional whitespace, the keyword `kw` is a prefix. -/
def afterWsKw (kw : List Char) : List Char → Bool
  | [] => false
  | c :: r => if isSpace c then afterWsKw kw r else prefixMatch kw (c :: r)

/-- Models `\s+KW`: at least one whitespace character, then `kw`. -/
def wsThenKw (kw : List Char) : List Char → Bool
  | [] => false
  | c :: r => isSpace c && afterWsKw kw r

/-- After optional whitespace, the head is `'@'`. -/
def atAfterWs : List Char → Bool
  | [] => false
  | c :: r => if c = '@' then true else if isSpace c then atAfterWs r else false

/-- Models `\s+@`: at least one whitespace character, then `'@'`. -/
def wsThenAt : List Char → Bool
  | [] => false
  | c :: r => isSpace c && atAfterWs r

/-- True iff no `'@'` occurs before the first line terminator: exactly
when the JS lookahead body `.*@` fails (JS `.` matches neither `\n` nor
`\r`). -/
def noAtBeforeNl : List Char → Bool
  | [] => true
  | c :: r =>
    if c = '@' then false
    else if c = '\n' || c = '\r' then true
    else noAtBeforeNl r

/-- Models `\s+(?!.*@)` with backtracking: some nonempty whitespace prefix
is consumed and the negative lookahead holds at the resulting position. -/
def setTail : List Char → Bool
  | [] => false
  | c :: r => isSpace c && (noAtBeforeNl r || setTail r)

/-- One mutation pattern: its regex source (for the error message) and its
matcher on the cleaned, uppercased query. -/
structure MutPat where
  src : String
  test : List Char → Bool

/-- Pattern `^\s*KW\s+` for a single keyword. -/
def kwWs (kw : List Char) (u : List Char) : Bool :=
  prefixMatch kw (skipWs u) && wsPlus ((skipWs u).drop kw.length)

/-- Pattern `^\s*KW` for a single keyword with nothing required after it. -/
def kwBare (kw : List Char) (u : List Char) : Bool :=
  prefixMatch kw (skipWs u)

/-- Pattern `^\s*KW1\s+KW2`. -/
def kwTwoWords (kw1 kw2 : List Char) (u : List Char) : Bool :=
  prefixMatch kw1 (skipWs u) && wsThenKw kw2 ((skipWs u).drop kw1.length)

/-- Pattern `^\s*SET\s+(?!.*@)`. -/
def kwSetNoAt (u : List Char) : Bool :=
  prefixMatch ['S', 'E', 'T'] (skipWs u) && setTail ((skipWs u).drop 3)

/-- Embedding of `QuerySanitizer.MUTATION_PATTERNS`, in source order. -/
def MUTATION_PATTERNS : List MutPat := [
  ⟨"^\\s*INSERT\\s+", kwWs ['I', 'N', 'S', 'E', 'R', 'T']⟩,
  ⟨"^\\s*UPDATE\\s+", kwWs ['U', 'P', 'D', 'A', 'T', 'E']⟩,
  ⟨"^\\s*DELETE\\s+", kwWs ['D', 'E', 'L', 'E', 'T', 'E']⟩,
  ⟨"^\\s*DROP\\s+", kwWs ['D', 'R', 'O', 'P']⟩,
  ⟨"^\\s*CREATE\\s+", kwWs ['C', 'R', 'E', 'A', 'T', 'E']⟩,
  ⟨"^\\s*ALTER\\s+", kwWs ['A', 'L', 'T', 'E', 'R']⟩,
  ⟨"^\\s*TRUNCATE\\s+", kwWs ['T', 'R', 'U', 'N', 'C', 'A', 'T', 'E']⟩,
  ⟨"^\\s*RENAME\\s+", kwWs ['R', 'E', 'N', 'A', 'M', 'E']⟩,
  ⟨"^\\s*REPLACE\\s+", kwWs ['R', 'E', 'P', 'L', 'A', 'C', 'E']⟩,
  ⟨"^\\s*LOAD\\s+", kwWs ['L', 'O', 'A', 'D']⟩,
  ⟨"^\\s*GRANT\\s+", kwWs ['G', 'R', 'A', 'N', 'T']⟩,
  ⟨"^\\s*REVOKE\\s+", kwWs ['R', 'E', 'V', 'O', 'K', 'E']⟩,
  ⟨"^\\s*FLUSH\\s+", kwWs ['F', 'L', 'U', 'S', 'H']⟩,
  ⟨"^\\s*LOCK\\s+", kwWs ['L', 'O', 'C', 'K']⟩,
  ⟨"^\\s*UNLOCK\\s+", kwWs ['U', 'N', 'L', 'O', 'C', 'K']⟩,
  ⟨"^\\s*SET\\s+(?!.*@)", kwSetNoAt⟩,
  ⟨"^\\s*CALL\\s+", kwWs ['C', 'A', 'L', 'L']⟩,
  ⟨"^\\s*START\\s+TRANSACTION",
    kwTwoWords ['S', 'T', 'A', 'R', 'T'] ['T', 'R', 'A', 'N', 'S', 'A', 'C', 'T', 'I', 'O', 'N']⟩,
  ⟨"^\\s*BEGIN", kwBare ['B', 'E', 'G', 'I', 'N']⟩,
  ⟨"^\\s*COMMIT", kwBare ['C', 'O', 'M', 'M', 'I', 'T']⟩,
  ⟨"^\\s*ROLLBACK", kwBare ['R', 'O', 'L', 'L', 'B', 'A', 'C', 'K']⟩,
  ⟨"^\\s*SAVEPOINT", kwBare ['S', 'A', 'V', 'E', 'P', 'O', 'I', 'N', 'T']⟩,
  ⟨"^\\s*RELEASE\\s+SAVEPOINT",
    kwTwoWords ['R', 'E', 'L', 'E', 'A', 'S', 'E'] ['S', 'A', 'V', 'E', 'P', 'O', 'I', 'N', 'T']⟩]

/-- The first mutation pattern that matches, as in the source's `for` loop
over `MUTATION_PATTERNS`. -/
def firstMutation (u : List Char) : Option String :=
  (MUTATION_PATTERNS.find? fun p => p.test u).map MutPat.src

/-- Pattern `^\s*SELECT\s+`. -/
def patSelect (u : List Char) : Bool := kwWs ['S', 'E', 'L', 'E', 'C', 'T'] u

/-- Pattern `^\s*SHOW\s+`. -/
def patShow (u : List Char) : Bool := kwWs ['S', 'H', 'O', 'W'] u

/-- Pattern `^\s*DESCRIBE\s+`. -/
def patDescribe (u : List Char) : Bool := kwWs ['D', 'E', 'S', 'C', 'R', 'I', 'B', 'E'] u

/-- Pattern `^\s*DESC\s+`. -/
def patDesc (u : List Char) : Bool := kwWs ['D', 'E', 'S', 'C'] u

/-- Pattern `^\s*EXPLAIN\s+`. -/
def patExplain (u : List Char) : Bool := kwWs ['E', 'X', 'P', 'L', 'A', 'I', 'N'] u

/-- Pattern `^\s*WITH\s+`. -/
def patWith (u : List Char) : Bool := kwWs ['W', 'I', 'T', 'H'] u

/-- Pattern `^\s*SET\s+@`. -/
def patSetAt (u : List Char) : Bool :=
  prefixMatch ['S', 'E', 'T'] (skipWs u) && wsThenAt ((skipWs u).drop 3)

/-- Embedding of `QuerySanitizer.ALLOWED_PATTERNS.some(...)`: short-circuit
disjunction in source order. -/
def startsWithAllowed (u : List Char) : Bool :=
  patSelect u || patShow u || patDescribe u || patDesc u || patExplain u ||
    patWith u || patSetAt u

/-- Substring containment, modelling `String.prototype.includes`. -/
def containsSub (needle : List Char) : List Char → Bool
  | [] => prefixMatch needle []
  | c :: r => prefixMatch needle (c :: r) || containsSub needle r

/-- Embedding of `QuerySanitizer.DANGEROUS_KEYWORDS`. -/
def DANGEROUS_KEYWORDS : List String :=
  ["INTO OUTFILE", "INTO DUMPFILE", "FOR UPDATE", "LOCK IN SHARE MODE"]

/-- The first dangerous keyword contained in the uppercased query, as in
the source's `for` loop with `upperQuery.includes(keyword)`. -/
def firstDangerous (u : List Char) : Option String :=
  DANGEROUS_KEYWORDS.find? fun kw => containsSub kw.data u

/-- Scanning loop of `QuerySanitizer.hasMultipleStatements`: carries
`inString`, `stringChar`, `escaped` exactly as the source does; at a
semicolon outside a string literal it rejects when non-whitespace content
follows. -/
def hasMultiGo : List Char → Bool → Char → Bool → Bool
  | [], _, _, _ => false
  | c :: rest, inString, sc, escaped =>
    if escaped then hasMultiGo rest inString sc false
    else if c = '\\' then hasMultiGo rest inString sc true
    else if !inString && (c = '"' || c = '\'') then hasMultiGo rest true c false
    else if inString && c = sc then hasMultiGo rest false sc false
    else if !inString && c = ';' then
      if rest.any (fun d => !isSpace d) then true
      else hasMultiGo rest inString sc false
    else hasMultiGo rest inString sc false

/-- Embedding of `QuerySanitizer.hasMultipleStatements`. -/
def hasMultipleStatements (l : List Char) : Bool := hasMultiGo l false ' ' false

/-- The value object returned by `QuerySanitizer.sanitize`. -/
structure SanitizationResult where
  isValid : Bool
  error : Option String
  sanitizedQuery : String

def emptyErr : String := "Query is empty"

def mutErr (src : String) : String := "Query contains mutation operation: " ++ src

def allowErr : String :=
  "Query must start with SELECT, SHOW, DESCRIBE, DESC, EXPLAIN, WITH, or SET @"

def dangerErr (kw : String) : String := "Query contains dangerous keyword: " ++ kw

def multiErr : String := "Multiple statements are not allowed"

/-- The classification pipeline of `QuerySanitizer.sanitize` after the
empty check, on the comment-stripped, trimmed query `c`: mutation scan,
allow-prefix check, dangerous-substring scan (on the uppercased text),
multi-statement guard. -/
def classifyNonEmpty (c : List Char) : SanitizationResult :=
  let u := upper c
  match firstMutation u with
  | some src => ⟨false, some (mutErr src), ""⟩
  | none =>
    if startsWithAllowed u then
      match firstDangerous u with
      | some kw => ⟨false, some (dangerErr kw), ""⟩
      | none =>
        if hasMultipleStatements c then ⟨false, some multiErr, ""⟩
        else ⟨true, none, ⟨c⟩⟩
    else ⟨false, some allowErr, ""⟩

/-- Embedding of `QuerySanitizer.sanitize`. -/
def sanitize (q : String) : SanitizationResult :=
  let c := cleanTrim q
  if c = [] then ⟨false, some emptyErr, ""⟩
  else classifyNonEmpty c

/-! ### Execute-query tool: row cap (`ExecuteQueryTool.execute`) -/

/-- Row-cap resolution `input.limit || config.query.maxRows`: JS `||` falls back to the
configured default when the override is absent or `0` (falsy). -/
def resolveLimit (override : Option Nat) (maxRows : Nat) : Nat :=
  match override with
  | some v => if v = 0 then maxRows else v
  | none => maxRows

/-- After optional whitespace, an ASCII digit: the tail of `\s+\d+` after
its first whitespace character. -/
def digitAfterWs : List Char → Bool
  | [] => false
  | c :: r => if isDigit c then true else if isSpace c then digitAfterWs r else false

/-- Models `\s+\d+`: at least one whitespace character, then a digit. -/
def wsThenDigit : List Char → Bool
  | [] => false
  | c :: r => isSpace c && digitAfterWs r

/-- Occurrence of the `LIMIT` keyword with `\s+\d+` starting exactly here
(uppercased input). -/
def limitAt (l : List Char) : Bool :=
  prefixMatch ['L', 'I', 'M', 'I', 'T'] l && wsThenDigit (l.drop 5)

/-- Scan every position for a word-boundary `LIMIT\s+\d+` match; `prev`
is the character before the current position (`none` at the start). -/
def hasLimitGo : Option Char → List Char → Bool
  | _, [] => false
  | prev, c :: r =>
    ((match prev with | none => true | some p => !isWordChar p) && limitAt (c :: r))
      || hasLimitGo (some c) r

/-- The case-insensitive regex test for an existing numeric cap clause. -/
def hasLimitClause (l : List Char) : Bool := hasLimitGo none (upper l)

/-- The appended text: a space, `LIMIT`, a space and the decimal cap. -/
def limitSuffix (cap : Nat) : List Char :=
  ' ' :: 'L' :: 'I' :: 'M' :: 'I' :: 'T' :: ' ' :: (Nat.repr cap).data

/-- Row-cap step of `ExecuteQueryTool.execute` on the admitted query: when
no cap clause exists and the query is SELECT-prefixed, append
a cap; otherwise pass the query through unchanged. -/
def applyLimit (s : List Char) (cap : Nat) : List Char :=
  if !hasLimitClause s && patSelect (upper s) then s ++ limitSuffix cap else s

/-- The admitted non-SELECT prefixes: SHOW, DESCRIBE, DESC, EXPLAIN,
WITH, SET @. -/
def otherAllowedStart (s : List Char) : Bool :=
  patShow (upper s) || patDescribe (upper s) || patDesc (upper s) ||
    patExplain (upper s) || patWith (upper s) || patSetAt (upper s)

/-! ### Spec-side predicates (stated from the claims' wording, for
refinement comparisons against the embedded code) -/

/-- The upcoming character ends a keyword: end of input or a non-word
character. -/
def kwBoundary : List Char → Bool
  | [] => true
  | c :: _ => !isWordChar c

/-- The claim-side reading of "begins with the keyword `kw`": the keyword
appears at the start, ending at a word boundary (uppercased input). -/
def kwAtStart (kw : List Char) (u : List Char) : Bool :=
  prefixMatch kw u && kwBoundary (u.drop kw.length)

/-- The single-word mutation keywords listed by the claim. -/
def claimMutationKeywords : List (List Char) := [
  ['I', 'N', 'S', 'E', 'R', 'T'], ['U', 'P', 'D', 'A', 'T', 'E'],
  ['D', 'E', 'L', 'E', 'T', 'E'], ['D', 'R', 'O', 'P'],
  ['C', 'R', 'E', 'A', 'T', 'E'], ['A', 'L', 'T', 'E', 'R'],
  ['T', 'R', 'U', 'N', 'C', 'A', 'T', 'E'], ['R', 'E', 'N', 'A', 'M', 'E'],
  ['R', 'E', 'P', 'L', 'A', 'C', 'E'], ['L', 'O', 'A', 'D'],
  ['G', 'R', 'A', 'N', 'T'], ['R', 'E', 'V', 'O', 'K', 'E'],
  ['F', 'L', 'U', 'S', 'H'], ['L', 'O', 'C', 'K'],
  ['U', 'N', 'L', 'O', 'C', 'K'], ['C', 'A', 'L', 'L'],
  ['B', 'E', 'G', 'I', 'N'], ['C', 'O', 'M', 'M', 'I', 'T'],
  ['R', 'O', 'L', 'L', 'B', 'A', 'C', 'K'],
  ['S', 'A', 'V', 'E', 'P', 'O', 'I', 'N', 'T']]

/-- Claim C1's hypothesis, read literally: the comment-stripped, trimmed
query begins with one of the mutation keywords (at a word boundary); for
`SET` the claim excepts the case where `SET` is followed by `@` (next
non-whitespace character, matching C5's "immediately followed by"). The
two-word keywords are matched as written. -/
def claimBeginsWithMutationKw (u : List Char) : Bool :=
  claimMutationKeywords.any (fun kw => kwAtStart kw u) ||
    kwAtStart "START TRANSACTION".data u ||
    kwAtStart "RELEASE SAVEPOINT".data u ||
    (kwAtStart ['S', 'E', 'T'] u && !atAfterWs (u.drop 3))

/-- Claim C2's rejection condition, read literally: some semicolon occurs
outside single/double-quoted string literals (quote state tracked with
backslash-escape awareness) and is followed by non-whitespace content.
An escaped quote does not toggle the literal state, but a semicolon
character outside a literal counts even when preceded by a backslash. -/
def claimStackedGo : List Char → Bool → Char → Bool → Bool
  | [], _, _, _ => false
  | c :: rest, inString, sc, escaped =>
    if !inString && c = ';' && rest.any (fun d => !isSpace d) then true
    else if escaped then claimStackedGo rest inString sc false
    else if c = '\\' then claimStackedGo rest inString sc true
    else if !inString && (c = '"' || c = '\'') then claimStackedGo rest true c false
    else if inString && c = sc then claimStackedGo rest false sc false
    else claimStackedGo rest inString sc false

def claimStacked (l : List Char) : Bool := claimStackedGo l false ' ' false

/-- Earlier pipeline steps of `sanitize` all pass: nonempty after
cleaning, no mutation-pattern match, an allowed prefix, and no dangerous
keyword. Used to state claims about the multi-statement guard. -/
def passesEarlier (q : String) : Bool :=
  !(cleanTrim q == []) && (firstMutation (upper (cleanTrim q))).isNone &&
    startsWithAllowed (upper (cleanTrim q)) &&
    (firstDangerous (upper (cleanTrim q))).isNone

/-- Prefix pipeline steps of `sanitize` pass: nonempty after cleaning, no
mutation-pattern match, an allowed prefix. Used to state claims about the
dangerous-substring scan. -/
def passesPrefixChecks (q : String) : Bool :=
  !(cleanTrim q == []) && (firstMutation (upper (cleanTrim q))).isNone &&
    startsWithAllowed (upper (cleanTrim q))

/-! ### Connection Manager (`MySQLManager`)

`getConnection` is modelled twice, matching its two claims:

* an interleaving model of two concurrent callers, where each `await` in
  the source is a suspension point (`CallerPC` records where a caller is
  suspended) — the source has no in-flight-initialization guard, so the
  interleaving is decided purely by the shared fields `pool` and
  `cloudSqlProxy`, exactly as in the code;
* a sequential model of one caller used for the probe-failure rollback.
-/

/-- Where a `getConnection` caller is suspended.

* `start`: about to run the `if (!this.pool)` check.
* `awaitProxyStart`: this caller assigned `this.cloudSqlProxy` and is
  suspended inside `startCloudSqlProxy` awaiting `proxy.start()`.
* `awaitProbe`: this caller created and assigned the pool (those steps
  have no intervening suspension point) and is awaiting the liveness
  probe.
* `done`: returned.
-/
inductive CallerPC where
  | start
  | awaitProxyStart
  | awaitProbe
  | done
deriving DecidableEq

/-- Shared state of the manager singleton while the proxy feature is
enabled, plus instrumentation counters: how many pools were ever created
(`poolsCreated`), how many proxy subprocesses were ever spawned
(`proxySpawns`), and whether some pool was created while the proxy was
not yet running (`poolBeforeProxyReady`). -/
structure MgrShared where
  pool : Option Nat
  proxyObj : Bool
  proxyRunning : Bool
  poolsCreated : Nat
  proxySpawns : Nat
  poolBeforeProxyReady : Bool
deriving DecidableEq

/-- One atomic segment of `getConnection` (proxy feature enabled, probe
succeeding), between suspension points, for one caller. -/
def stepCaller : CallerPC → MgrShared → CallerPC × MgrShared
  | .start, st =>
    match st.pool with
    | some _ => (.done, st)
    | none =>
      if st.proxyObj then
        -- `startCloudSqlProxy` sees `this.cloudSqlProxy` set and returns
        -- without awaiting the in-flight `start()`; the caller then
        -- creates and assigns the pool and suspends at the probe.
        (.awaitProbe, { st with
          pool := some (st.poolsCreated + 1),
          poolsCreated := st.poolsCreated + 1,
          poolBeforeProxyReady := st.poolBeforeProxyReady || !st.proxyRunning })
      else
        -- assign `this.cloudSqlProxy`, spawn the subprocess, and suspend
        -- awaiting `proxy.start()`.
        (.awaitProxyStart, { st with proxyObj := true, proxySpawns := st.proxySpawns + 1 })
  | .awaitProxyStart, st =>
    -- `proxy.start()` resolved; create and assign the pool (overwriting
    -- any pool another caller assigned meanwhile) and suspend at the probe.
    (.awaitProbe, { st with
      proxyRunning := true,
      pool := some (st.poolsCreated + 1),
      poolsCreated := st.poolsCreated + 1 })
  | .awaitProbe, st => (.done, st)
  | .done, st => (.done, st)

/-- Run a schedule over two callers `A` (`false`) and `B` (`true`). -/
def runSched : List Bool → CallerPC × CallerPC → MgrShared → MgrShared
  | [], _, st => st
  | tid :: rest, (pa, pb), st =>
    if tid then
      let s := stepCaller pb st
      runSched rest (pa, s.1) s.2
    else
      let s := stepCaller pa st
      runSched rest (s.1, pb) s.2

/-- The manager before any call: no pool, no proxy object. -/
def initShared : MgrShared := ⟨none, false, false, 0, 0, false⟩

/-- Sequential-state model for the probe-failure path: the manager's two
fields. -/
structure MgrSt where
  pool : Option Nat
  proxyObj : Bool
  proxyRunning : Bool
deriving DecidableEq

/-- Environment of a single `getConnection` call: whether the proxy
feature is enabled, whether `proxy.start()` succeeds, whether the
liveness probe (acquire + ping) succeeds, and the probe's error text. -/
structure MgrEnv where
  proxyEnabled : Bool
  proxyStartOk : Bool
  probeOk : Bool
  probeErr : String

def connectFailMsg (e : MgrEnv) : String := "Failed to connect to MySQL: " ++ e.probeErr

/-- Sequential model of `MySQLManager.getConnection`: reuse an existing
pool; otherwise start the proxy if enabled and not yet constructed (a
`start()` failure propagates, leaving `cloudSqlProxy` assigned), create
the pool, and run the liveness probe; on probe failure null the pool,
stop the proxy (which also nulls it), and throw the wrapped error. -/
def getConnectionM (e : MgrEnv) (s : MgrSt) : Except String Nat × MgrSt :=
  match s.pool with
  | some p => (.ok p, s)
  | none =>
    if e.proxyEnabled && !s.proxyObj && !e.proxyStartOk then
      (.error "proxy start failed", { s with proxyObj := true })
    else
      let s1 := if e.proxyEnabled && !s.proxyObj then
          { s with proxyObj := true, proxyRunning := true }
        else s
      let s2 := { s1 with pool := some 1 }
      if e.probeOk then (.ok 1, s2)
      else (.error (connectFailMsg e), ⟨none, false, false⟩)

/-! ### Proxy Supervisor (`CloudSQLProxy.start` / `stop`) -/

/-- Signals `stop()` can send to the subprocess. -/
inductive Sig where
  | term
  | kill
deriving DecidableEq

/-- Environment of one `start()` call: the configured startup timeout in
milliseconds, whether the `i`-th TCP poll connects, whether the
subprocess has exited by the `i`-th poll, and whether it exits within
the 5 s grace period after SIGTERM. -/
structure ProxyEnv where
  startupTimeout : Nat
  connectOk : Nat → Bool
  exitedBy : Nat → Bool
  gracefulStopWorks : Bool

/-- Outcome of `start()`: the result, the signals `stop()` sent in
order, whether a process handle is still held, and `isRunning`. -/
structure StartOutcome where
  result : Except String Unit
  signals : List Sig
  processHandle : Bool
  running : Bool

def timeoutMsg : String := "Cloud SQL Proxy failed to start within the startup timeout"

def earlyExitMsg : String := "Cloud SQL Proxy exited unexpectedly"

/-- Model of `CloudSQLProxy.stop`: with a live process, send SIGTERM; if
the process does not exit within the 5 s grace period, force-kill with
SIGKILL. Either way the handle is cleared and `isRunning` is false. -/
def stopSignals (graceful : Bool) : List Sig :=
  if graceful then [Sig.term] else [Sig.term, Sig.kill]

/-- The readiness-poll loop of `CloudSQLProxy.start`: one iteration per
500 ms poll interval (`fuel` counts the remaining iterations with
elapsed time below the startup timeout, `i` the current poll index).
Each iteration first checks for an early subprocess exit, then attempts
a TCP connect; when the loop expires, `stop()` runs before the timeout
error is thrown. -/
def startLoop (e : ProxyEnv) : Nat → Nat → StartOutcome
  | 0, _ => ⟨.error timeoutMsg, stopSignals e.gracefulStopWorks, false, false⟩
  | fuel + 1, i =>
    if e.exitedBy i then ⟨.error earlyExitMsg, [], false, false⟩
    else if e.connectOk i then ⟨.ok (), [], true, true⟩
    else startLoop e fuel (i + 1)

/-- Number of poll iterations whose start lies before the timeout:
iteration `i` runs while `500 * i < startupTimeout`. -/
def numPolls (startupTimeout : Nat) : Nat := (startupTimeout + 499) / 500

/-- Model of `CloudSQLProxy.start` after the subprocess spawn. -/
def startModel (e : ProxyEnv) : StartOutcome :=
  startLoop e (numPolls e.startupTimeout) 0

/-- A startup environment where no TCP poll ever connects, the
subprocess never exits on its own, and SIGTERM is ignored. -/
def proxyEnvNoConnect : ProxyEnv := ⟨1000, fun _ => false, fun _ => false, false⟩


/-! ## Helper lemmas -/

theorem firstMutation_nil : firstMutation (upper []) = none := rfl

/-- When the mutation scan hits, `sanitize` returns that rejection. -/
theorem sanitize_mutation (q : String) {src : String}
    (h : firstMutation (upper (cleanTrim q)) = some src) :
    sanitize q = ⟨false, some (mutErr src), ""⟩ := by
  have hne : cleanTrim q ≠ [] := by
    intro hnil
    rw [hnil] at h
    rw [firstMutation_nil] at h
    exact Option.noConfusion h
  simp only [sanitize, classifyNonEmpty, if_neg hne, h]

/-- When the first four steps pass, `sanitize` reduces to the
multi-statement guard. -/
theorem sanitize_after_passes (q : String)
    (h1 : cleanTrim q ≠ []) (h2 : firstMutation (upper (cleanTrim q)) = none)
    (h3 : startsWithAllowed (upper (cleanTrim q)) = true)
    (h4 : firstDangerous (upper (cleanTrim q)) = none) :
    sanitize q = if hasMultipleStatements (cleanTrim q)
      then ⟨false, some multiErr, ""⟩ else ⟨true, none, ⟨cleanTrim q⟩⟩ := by
  simp only [sanitize, classifyNonEmpty, if_neg h1, h2, h3, h4, if_true]

/-- When the prefix steps pass and a dangerous keyword is found,
`sanitize` returns that rejection. -/
theorem sanitize_danger (q : String) {kw : String}
    (h1 : cleanTrim q ≠ []) (h2 : firstMutation (upper (cleanTrim q)) = none)
    (h3 : startsWithAllowed (upper (cleanTrim q)) = true)
    (h4 : firstDangerous (upper (cleanTrim q)) = some kw) :
    sanitize q = ⟨false, some (dangerErr kw), ""⟩ := by
  simp only [sanitize, classifyNonEmpty, if_neg h1, h2, h3, h4, if_true]

/-- A valid result means every pipeline step passed, and the returned
query is the cleaned, trimmed text. -/
theorem sanitize_valid_parts (q : String) (h : (sanitize q).isValid = true) :
    cleanTrim q ≠ [] ∧ firstMutation (upper (cleanTrim q)) = none ∧
    startsWithAllowed (upper (cleanTrim q)) = true ∧
    firstDangerous (upper (cleanTrim q)) = none ∧
    hasMultipleStatements (cleanTrim q) = false ∧
    (sanitize q).sanitizedQuery = ⟨cleanTrim q⟩ := by
  by_cases h1 : cleanTrim q = []
  · simp [sanitize, h1] at h
  · cases h2 : firstMutation (upper (cleanTrim q)) with
    | some src => rw [sanitize_mutation q h2] at h; exact absurd h (by simp)
    | none =>
      by_cases h3 : startsWithAllowed (upper (cleanTrim q)) = true
      · cases h4 : firstDangerous (upper (cleanTrim q)) with
        | some kw => rw [sanitize_danger q h1 h2 h3 h4] at h; exact absurd h (by simp)
        | none =>
          have he := sanitize_after_passes q h1 h2 h3 h4
          by_cases h5 : hasMultipleStatements (cleanTrim q) = true
          · rw [he, if_pos h5] at h; exact absurd h (by simp)
          · rw [he, if_neg h5] at h ⊢
            exact ⟨h1, rfl, h3, rfl, by simpa using h5, rfl⟩
      · have hq : sanitize q = ⟨false, some allowErr, ""⟩ := by
          simp only [sanitize, classifyNonEmpty, if_neg h1, h2]
          rw [if_neg h3]
        rw [hq] at h
        exact absurd h (by simp)

theorem mem_of_mem_dropWhile {x : Char} {p : Char → Bool} {l : List Char}
    (h : x ∈ l.dropWhile p) : x ∈ l :=
  (List.dropWhile_sublist p).mem h

theorem all_trimL (p : Char → Bool) (l : List Char) (h : l.all p = true) :
    (trimL l).all p = true := by
  rw [List.all_eq_true] at h ⊢
  intro x hx
  apply h
  unfold trimL at hx
  rw [List.mem_reverse] at hx
  have hx2 := mem_of_mem_dropWhile hx
  rw [List.mem_reverse] at hx2
  exact mem_of_mem_dropWhile hx2

/-- The third comment pass removes every `'#'`. -/
theorem shGo_no_hash : ∀ (l : List Char) (m : Bool),
    (shGo l m).all (fun c => c != '#') = true := by
  intro l
  induction l with
  | nil => intro m; rfl
  | cons c r ih =>
    intro m
    simp only [shGo]
    split
    · split
      · simp [List.all_cons, ih, *]
      · exact ih true
    · split
      · exact ih true
      · simp [List.all_cons, ih, *]

theorem mk_ne_empty {c : List Char} (h : c ≠ []) : (⟨c⟩ : String) ≠ "" := by
  intro he
  apply h
  have h2 : (⟨c⟩ : String).data = ("" : String).data := by rw [he]
  exact h2.trans rfl

/-- A prefix match forces the head of the input. -/
theorem prefixMatch_cons {k : Char} {ks : List Char} {v : List Char}
    (h : prefixMatch (k :: ks) v = true) :
    ∃ t, v = k :: t ∧ prefixMatch ks t = true := by
  cases v with
  | nil => simp [prefixMatch] at h
  | cons a t =>
    simp only [prefixMatch, Bool.and_eq_true, beq_iff_eq] at h
    exact ⟨t, by rw [← h.1], h.2⟩


/-! ## Claim theorems -/

/-- **C1, counterexample.** The claim states that every query whose
comment-stripped, trimmed form begins with a mutation keyword (for `SET`:
unless immediately followed by `@`) is rejected *with an error naming the
offending pattern*. Two concrete inputs refute this: the bare keyword
`"DELETE"` (the patterns require trailing whitespace after `DELETE`) and
`"SET autocommit = @x"` (the pattern's lookahead scans the whole rest of
the line for `@`, not just the position after `SET`). Both are rejected,
but with the generic allow-list error, which is none of the
mutation-pattern messages. -/
theorem C1_counterexample :
    (claimBeginsWithMutationKw (upper (cleanTrim "DELETE")) = true ∧
      (sanitize "DELETE").isValid = false ∧
      (MUTATION_PATTERNS.all fun p => !((sanitize "DELETE").error == some (mutErr p.src))) = true) ∧
    (claimBeginsWithMutationKw (upper (cleanTrim "SET autocommit = @x")) = true ∧
      (sanitize "SET autocommit = @x").isValid = false ∧
      (MUTATION_PATTERNS.all fun p =>
        !((sanitize "SET autocommit = @x").error == some (mutErr p.src))) = true) := by
  decide

/-- **C1, amended.** For every query whose comment-stripped, trimmed form
matches one of the mutation patterns — keyword followed by at least one
whitespace character (`BEGIN`, `COMMIT`, `ROLLBACK`, `SAVEPOINT` need no
trailing whitespace; `START TRANSACTION` and `RELEASE SAVEPOINT` are two
whitespace-separated words; `SET` matches only when, after some nonempty
whitespace following it, no `@` occurs before the next line terminator) —
`sanitize` returns `isValid = false` with an error naming the first
matching pattern's source. -/
theorem C1_amended (q : String)
    (h : (MUTATION_PATTERNS.any fun p => p.test (upper (cleanTrim q))) = true) :
    (sanitize q).isValid = false ∧
    ∃ src, firstMutation (upper (cleanTrim q)) = some src ∧
      (sanitize q).error = some (mutErr src) := by
  rw [List.any_eq_true] at h
  obtain ⟨p, hmem, hp⟩ := h
  have hsome : (MUTATION_PATTERNS.find? fun p => p.test (upper (cleanTrim q))).isSome := by
    rw [List.find?_isSome]
    exact ⟨p, hmem, hp⟩
  obtain ⟨pf, hpf⟩ := Option.isSome_iff_exists.mp hsome
  have hfm : firstMutation (upper (cleanTrim q)) = some pf.src := by
    rw [firstMutation, hpf]
    rfl
  rw [sanitize_mutation q hfm]
  exact ⟨rfl, pf.src, hfm, rfl⟩

/-- **C1, witness.** `"DELETE FROM t"` matches a mutation pattern and is
rejected with the pattern-naming error. -/
theorem C1_amended_witness :
    (MUTATION_PATTERNS.any fun p => p.test (upper (cleanTrim "DELETE FROM t"))) = true ∧
    ((sanitize "DELETE FROM t").isValid = false ∧
      ∃ src, firstMutation (upper (cleanTrim "DELETE FROM t")) = some src ∧
        (sanitize "DELETE FROM t").error = some (mutErr src)) :=
  ⟨by decide, C1_amended "DELETE FROM t" (by decide)⟩

/-- **C2, counterexample.** The claim states that, for queries passing the
earlier steps, rejection with the multiple-statements error happens
exactly when a semicolon outside string literals is followed by
non-whitespace content. The query `"SELECT \; DROP TABLE t"` passes the
earlier steps and contains such a semicolon (outside any literal, with
content after it), yet `sanitize` accepts it: the scanner treats a
backslash as escaping the next character even outside string literals,
so the semicolon is skipped. -/
theorem C2_counterexample :
    passesEarlier "SELECT \\; DROP TABLE t" = true ∧
    claimStacked (cleanTrim "SELECT \\; DROP TABLE t") = true ∧
    (sanitize "SELECT \\; DROP TABLE t").isValid = true := by
  decide

/-- **C2, amended.** For every query that passes the earlier
classification steps, `sanitize` returns `isValid = false` with error
"Multiple statements are not allowed" exactly when the character-by-
character scan of `hasMultipleStatements` — which tracks single/double-
quote literal state and treats a backslash as escaping the next character
even outside literals — finds an unescaped semicolon outside a string
literal followed by non-whitespace content. A trailing semicolon and a
semicolon inside a string literal are tolerated. -/
theorem C2_amended (q : String) (h : passesEarlier q = true) :
    ((sanitize q).isValid = false ∧ (sanitize q).error = some multiErr) ↔
      hasMultipleStatements (cleanTrim q) = true := by
  unfold passesEarlier at h
  simp only [Bool.and_eq_true, beq_iff_eq, Bool.not_eq_true', Option.isNone_iff_eq_none] at h
  obtain ⟨⟨⟨h1, h2⟩, h3⟩, h4⟩ := h
  have h1' : cleanTrim q ≠ [] := by
    intro hc
    rw [hc] at h1
    simp at h1
  have he := sanitize_after_passes q h1' h2 h3 h4
  by_cases h5 : hasMultipleStatements (cleanTrim q) = true
  · rw [he, if_pos h5]
    simp [h5]
  · rw [he, if_neg h5]
    simp [h5]

/-- **C2, witness.** `"SELECT * FROM t; DROP TABLE t"` passes the earlier
steps and is rejected by the multi-statement guard. -/
theorem C2_amended_witness :
    passesEarlier "SELECT * FROM t; DROP TABLE t" = true ∧
    ((sanitize "SELECT * FROM t; DROP TABLE t").isValid = false ∧
      (sanitize "SELECT * FROM t; DROP TABLE t").error = some multiErr) :=
  ⟨by decide, (C2_amended "SELECT * FROM t; DROP TABLE t" (by decide)).mpr (by decide)⟩

/-- **C3, counterexample.** The claim states that a valid result's
`sanitizedQuery` is free of SQL comments. But comment removal is a single
pass: in the query below, a hyphen, a block comment and another hyphen
precede ` 1`; removing the block comment splices the surrounding hyphens
into `"SELECT -- 1"`, which is accepted as valid and contains a `--`
line comment. -/
theorem C3_counterexample :
    (sanitize "SELECT -/*c*/- 1").isValid = true ∧
    containsSub ['-', '-'] (sanitize "SELECT -/*c*/- 1").sanitizedQuery.data = true := by
  decide

/-- **C3, amended.** For every input: if `isValid` is false then
`sanitizedQuery` is the empty string, and if `isValid` is true then
`sanitizedQuery` is non-empty and contains no `#` character (hence no `#`
line comment); it may, however, still contain `--` or `/*` sequences
(block-comment removal can splice new `--` sequences together, and an
unterminated `/*` is kept verbatim). -/
theorem C3_amended (q : String) :
    ((sanitize q).isValid = false → (sanitize q).sanitizedQuery = "") ∧
    ((sanitize q).isValid = true →
      (sanitize q).sanitizedQuery ≠ "" ∧
      ((sanitize q).sanitizedQuery.data.all fun c => c != '#') = true) := by
  constructor
  · intro hinv
    by_cases h1 : cleanTrim q = []
    · simp [sanitize, h1]
    · cases h2 : firstMutation (upper (cleanTrim q)) with
      | some src => rw [sanitize_mutation q h2]
      | none =>
        by_cases h3 : startsWithAllowed (upper (cleanTrim q)) = true
        · cases h4 : firstDangerous (upper (cleanTrim q)) with
          | some kw => rw [sanitize_danger q h1 h2 h3 h4]
          | none =>
            have he := sanitize_after_passes q h1 h2 h3 h4
            by_cases h5 : hasMultipleStatements (cleanTrim q) = true
            · rw [he, if_pos h5]
            · rw [he, if_neg h5] at hinv
              simp at hinv
        · have hq : sanitize q = ⟨false, some allowErr, ""⟩ := by
            simp only [sanitize, classifyNonEmpty, if_neg h1, h2]
            rw [if_neg h3]
          rw [hq]
  · intro hv
    obtain ⟨h1, _, _, _, _, h6⟩ := sanitize_valid_parts q hv
    rw [h6]
    refine ⟨mk_ne_empty h1, ?_⟩
    show (cleanTrim q).all (fun c => c != '#') = true
    unfold cleanTrim
    apply all_trimL
    unfold removeComments stripHash
    exact shGo_no_hash _ false

/-- **C3, witness.** A valid query's sanitized text is non-empty and
hash-free. -/
theorem C3_amended_witness :
    (sanitize "SELECT 1").isValid = true ∧
    ((sanitize "SELECT 1").sanitizedQuery ≠ "" ∧
      ((sanitize "SELECT 1").sanitizedQuery.data.all fun c => c != '#') = true) :=
  ⟨by decide, (C3_amended "SELECT 1").2 (by decide)⟩

/-- **C4.** For every query that passes the prefix checks, if the
uppercased cleaned query contains one of the dangerous substrings
(`INTO OUTFILE`, `INTO DUMPFILE`, `FOR UPDATE`, `LOCK IN SHARE MODE`)
anywhere, `sanitize` returns `isValid = false` with an error naming the
keyword. -/
theorem C4_theorem (q : String) (hp : passesPrefixChecks q = true)
    (hd : (DANGEROUS_KEYWORDS.any fun kw => containsSub kw.data (upper (cleanTrim q))) = true) :
    (sanitize q).isValid = false ∧
    ∃ kw ∈ DANGEROUS_KEYWORDS, containsSub kw.data (upper (cleanTrim q)) = true ∧
      (sanitize q).error = some (dangerErr kw) := by
  unfold passesPrefixChecks at hp
  simp only [Bool.and_eq_true, beq_iff_eq, Bool.not_eq_true', Option.isNone_iff_eq_none] at hp
  obtain ⟨⟨h1, h2⟩, h3⟩ := hp
  have h1' : cleanTrim q ≠ [] := fun hc => by rw [hc] at h1; simp at h1
  rw [List.any_eq_true] at hd
  obtain ⟨k0, hk0, hck⟩ := hd
  have hsome : (DANGEROUS_KEYWORDS.find? fun kw =>
      containsSub kw.data (upper (cleanTrim q))).isSome := by
    rw [List.find?_isSome]
    exact ⟨k0, hk0, hck⟩
  obtain ⟨kw, hkw⟩ := Option.isSome_iff_exists.mp hsome
  have hfd : firstDangerous (upper (cleanTrim q)) = some kw := hkw
  have hmem : kw ∈ DANGEROUS_KEYWORDS := List.mem_of_find?_eq_some hkw
  have hpred := List.find?_some hkw
  simp only [] at hpred
  rw [sanitize_danger q h1' h2 h3 hfd]
  exact ⟨rfl, kw, hmem, hpred, rfl⟩

/-- **C4, witness.** `"SELECT * INTO OUTFILE '/tmp/x'"` is rejected by the
dangerous-substring scan despite its SELECT prefix. -/
theorem C4_witness :
    passesPrefixChecks "SELECT * INTO OUTFILE '/tmp/x'" = true ∧
    ((sanitize "SELECT * INTO OUTFILE '/tmp/x'").isValid = false ∧
      ∃ kw ∈ DANGEROUS_KEYWORDS,
        containsSub kw.data (upper (cleanTrim "SELECT * INTO OUTFILE '/tmp/x'")) = true ∧
        (sanitize "SELECT * INTO OUTFILE '/tmp/x'").error = some (dangerErr kw)) :=
  ⟨by decide, C4_theorem "SELECT * INTO OUTFILE '/tmp/x'" (by decide) (by decide)⟩

/-- **C5.** For every query whose comment-stripped, trimmed form begins
(case-insensitively) with `SET`, a valid result forces `SET` to be
followed by at least one whitespace character and then a `@` (after
optional further whitespace): the only allowed pattern a SET-prefixed
query can match is the session-variable pattern. In particular
`"SET @x = 1"` is valid and `"SET autocommit = 0"` is invalid. -/
theorem C5_theorem :
    (∀ (q : String) (rest : List Char),
      upper (cleanTrim q) = 'S' :: 'E' :: 'T' :: rest →
      (sanitize q).isValid = true → wsThenAt rest = true) ∧
    (sanitize "SET @x = 1").isValid = true ∧
    (sanitize "SET autocommit = 0").isValid = false := by
  refine ⟨?_, by decide, by decide⟩
  intro q rest hu hv
  obtain ⟨_, _, h3, _, _, _⟩ := sanitize_valid_parts q hv
  rw [hu] at h3
  have hr : startsWithAllowed ('S' :: 'E' :: 'T' :: rest) = wsThenAt rest := rfl
  rw [hr] at h3
  exact h3

/-- **C5, witness.** Instantiated at the valid query `"SET @x = 1"`. -/
theorem C5_witness :
    upper (cleanTrim "SET @x = 1") =
      'S' :: 'E' :: 'T' :: (' ' :: '@' :: 'X' :: ' ' :: '=' :: ' ' :: '1' :: []) ∧
    (sanitize "SET @x = 1").isValid = true ∧
    wsThenAt (' ' :: '@' :: 'X' :: ' ' :: '=' :: ' ' :: '1' :: []) = true :=
  ⟨by decide, by decide,
    C5_theorem.1 "SET @x = 1" (' ' :: '@' :: 'X' :: ' ' :: '=' :: ' ' :: '1' :: [])
      (by decide) (by decide)⟩

/-- Disjointness: a SHOW-matching query is not SELECT-matching. -/
theorem patShow_not_select (w : List Char) (h : patShow w = true) : patSelect w = false := by
  unfold patShow kwWs at h
  rw [Bool.and_eq_true] at h
  obtain ⟨hp, _⟩ := h
  obtain ⟨t1, hv1, hp1⟩ := prefixMatch_cons hp
  obtain ⟨t2, hv2, _⟩ := prefixMatch_cons hp1
  unfold patSelect kwWs
  rw [hv1, hv2]
  rfl

/-- Disjointness: a DESCRIBE-matching query is not SELECT-matching. -/
theorem patDescribe_not_select (w : List Char) (h : patDescribe w = true) :
    patSelect w = false := by
  unfold patDescribe kwWs at h
  rw [Bool.and_eq_true] at h
  obtain ⟨hp, _⟩ := h
  obtain ⟨t1, hv1, _⟩ := prefixMatch_cons hp
  unfold patSelect kwWs
  rw [hv1]
  rfl

/-- Disjointness: a DESC-matching query is not SELECT-matching. -/
theorem patDesc_not_select (w : List Char) (h : patDesc w = true) : patSelect w = false := by
  unfold patDesc kwWs at h
  rw [Bool.and_eq_true] at h
  obtain ⟨hp, _⟩ := h
  obtain ⟨t1, hv1, _⟩ := prefixMatch_cons hp
  unfold patSelect kwWs
  rw [hv1]
  rfl

/-- Disjointness: an EXPLAIN-matching query is not SELECT-matching. -/
theorem patExplain_not_select (w : List Char) (h : patExplain w = true) :
    patSelect w = false := by
  unfold patExplain kwWs at h
  rw [Bool.and_eq_true] at h
  obtain ⟨hp, _⟩ := h
  obtain ⟨t1, hv1, _⟩ := prefixMatch_cons hp
  unfold patSelect kwWs
  rw [hv1]
  rfl

/-- Disjointness: a WITH-matching query is not SELECT-matching. -/
theorem patWith_not_select (w : List Char) (h : patWith w = true) : patSelect w = false := by
  unfold patWith kwWs at h
  rw [Bool.and_eq_true] at h
  obtain ⟨hp, _⟩ := h
  obtain ⟨t1, hv1, _⟩ := prefixMatch_cons hp
  unfold patSelect kwWs
  rw [hv1]
  rfl

/-- Disjointness: a SET-@-matching query is not SELECT-matching. -/
theorem patSetAt_not_select (w : List Char) (h : patSetAt w = true) : patSelect w = false := by
  unfold patSetAt at h
  rw [Bool.and_eq_true] at h
  obtain ⟨hp, _⟩ := h
  obtain ⟨t1, hv1, hp1⟩ := prefixMatch_cons hp
  obtain ⟨t2, hv2, hp2⟩ := prefixMatch_cons hp1
  obtain ⟨t3, hv3, _⟩ := prefixMatch_cons hp2
  unfold patSelect kwWs
  rw [hv1, hv2, hv3]
  rfl

/-- A query starting with one of the admitted non-SELECT prefixes never
matches the SELECT pattern. -/
theorem otherAllowed_not_select (s : List Char) (h : otherAllowedStart s = true) :
    patSelect (upper s) = false := by
  unfold otherAllowedStart at h
  simp only [Bool.or_eq_true] at h
  rcases h with ((((h | h) | h) | h) | h) | h
  · exact patShow_not_select _ h
  · exact patDescribe_not_select _ h
  · exact patDesc_not_select _ h
  · exact patExplain_not_select _ h
  · exact patWith_not_select _ h
  · exact patSetAt_not_select _ h

theorem limitSuffix_ne_nil (cap : Nat) : limitSuffix cap ≠ [] := by
  simp [limitSuffix]

/-- **C6.** For every admitted query and row cap (the per-call override
when given and nonzero, otherwise the configured default), the
execute-query tool appends a cap clause if and only if the query has no
existing case-insensitive `LIMIT <number>` clause and the query's prefix
is `SELECT`; admitted queries starting with SHOW, DESCRIBE, DESC,
EXPLAIN, WITH, or SET @ are passed to execution unchanged. -/
theorem C6_theorem (o : Option Nat) (m : Nat) (s : List Char) :
    (applyLimit s (resolveLimit o m) = s ++ limitSuffix (resolveLimit o m) ↔
      (hasLimitClause s = false ∧ patSelect (upper s) = true)) ∧
    (otherAllowedStart s = true → applyLimit s (resolveLimit o m) = s) := by
  constructor
  · by_cases hc : (!hasLimitClause s && patSelect (upper s)) = true
    · rw [Bool.and_eq_true, Bool.not_eq_true'] at hc
      constructor
      · intro _
        exact hc
      · intro _
        unfold applyLimit
        rw [if_pos (by rw [Bool.and_eq_true, Bool.not_eq_true']; exact hc)]
    · constructor
      · intro heq
        exfalso
        unfold applyLimit at heq
        rw [if_neg hc] at heq
        have hl := congrArg List.length heq
        rw [List.length_append] at hl
        have h0 : (limitSuffix (resolveLimit o m)).length = 0 := by omega
        rw [List.length_eq_zero] at h0
        exact limitSuffix_ne_nil _ h0
      · intro ⟨hn, hsel⟩
        exact absurd (by rw [Bool.and_eq_true, Bool.not_eq_true']; exact ⟨hn, hsel⟩) hc
  · intro ho
    have hps : patSelect (upper s) = false := otherAllowed_not_select s ho
    unfold applyLimit
    rw [if_neg (by simp [hps])]

/-- **C6, witness.** `"SHOW TABLES"` passes through unchanged,
`"SELECT * FROM users LIMIT 5"` receives no second cap, and
`"SELECT * FROM users"` gets ` LIMIT 1000` appended. -/
theorem C6_witness :
    (otherAllowedStart ("SHOW TABLES").data = true ∧
      applyLimit ("SHOW TABLES").data (resolveLimit none 1000) = ("SHOW TABLES").data) ∧
    (applyLimit ("SELECT * FROM users LIMIT 5").data (resolveLimit none 1000) =
      ("SELECT * FROM users LIMIT 5").data) ∧
    (applyLimit ("SELECT * FROM users").data (resolveLimit none 1000) =
      ("SELECT * FROM users").data ++ limitSuffix 1000) :=
  ⟨⟨by decide, (C6_theorem none 1000 ("SHOW TABLES").data).2 (by decide)⟩,
    by decide,
    (C6_theorem none 1000 ("SELECT * FROM users").data).1.mpr (by decide)⟩

/-- **C7 (code bug).** The claim (and the spec) requires that two
concurrent first-time `getConnection` calls produce exactly one pool via
a single guarded initialization. The code has no in-flight-initialization
guard: in the interleaving where caller A suspends awaiting
`proxy.start()` and caller B then runs, B sees `cloudSqlProxy` already
set, skips awaiting, and creates a pool before the proxy is running;
when A resumes it creates a second pool. The schedule below exhibits two
pool creations (with one proxy spawn), and a pool created before the
proxy was ready. -/
theorem C7_theorem :
    (runSched [false, true, false, true, false] (CallerPC.start, CallerPC.start)
        initShared).poolsCreated = 2 ∧
    (runSched [false, true, false, true, false] (CallerPC.start, CallerPC.start)
        initShared).proxySpawns = 1 ∧
    (runSched [false, true, false, true, false] (CallerPC.start, CallerPC.start)
        initShared).poolBeforeProxyReady = true := by
  decide

/-- **C8.** If the first-time liveness probe fails during
`getConnection` (and the proxy start itself did not fail first), the
manager discards the pool, stops the proxy supervisor, throws the
wrapped connectivity error, and leaves its state clean so a later call
can retry initialization from scratch. -/
theorem C8_theorem (e : MgrEnv) (s : MgrSt)
    (hpool : s.pool = none) (hprobe : e.probeOk = false)
    (hstart : e.proxyEnabled = true → s.proxyObj = false → e.proxyStartOk = true) :
    getConnectionM e s = (.error (connectFailMsg e), ⟨none, false, false⟩) := by
  obtain ⟨pool, pobj, prun⟩ := s
  obtain ⟨en, sok, pok, msg⟩ := e
  simp only at hpool hprobe hstart
  subst hpool hprobe
  cases en <;> cases sok <;> cases pobj <;>
    simp_all [getConnectionM, connectFailMsg]

/-- **C8, witness.** Proxy enabled, start succeeding, probe failing. -/
theorem C8_witness :
    ((⟨none, false, false⟩ : MgrSt).pool = none ∧
      (⟨true, true, false, "ping failed"⟩ : MgrEnv).probeOk = false) ∧
    getConnectionM ⟨true, true, false, "ping failed"⟩ ⟨none, false, false⟩ =
      (.error (connectFailMsg ⟨true, true, false, "ping failed"⟩), ⟨none, false, false⟩) :=
  ⟨⟨rfl, rfl⟩, C8_theorem ⟨true, true, false, "ping failed"⟩ ⟨none, false, false⟩ rfl rfl
    (fun _ _ => rfl)⟩

/-- **C9.** If neither a successful TCP connect nor a subprocess exit
occurs on any poll before the startup timeout elapses, `start()` runs
`stop()` — SIGTERM, then SIGKILL when the process ignores the 5 s grace
period — before throwing the timeout error, clearing the process handle,
so no orphaned subprocess is left running. -/
theorem C9_theorem (e : ProxyEnv)
    (h : ∀ i, i < numPolls e.startupTimeout →
      e.connectOk i = false ∧ e.exitedBy i = false) :
    (startModel e).result = .error timeoutMsg ∧
    (startModel e).signals = stopSignals e.gracefulStopWorks ∧
    (startModel e).processHandle = false ∧
    (startModel e).running = false := by
  have key : ∀ (fuel i : Nat),
      (∀ j, j < fuel → e.connectOk (i + j) = false ∧ e.exitedBy (i + j) = false) →
      startLoop e fuel i =
        ⟨.error timeoutMsg, stopSignals e.gracefulStopWorks, false, false⟩ := by
    intro fuel
    induction fuel with
    | zero => intro i _; rfl
    | succ n ih =>
      intro i hj
      have h0 := hj 0 (Nat.succ_pos n)
      rw [Nat.add_zero] at h0
      have hrest : ∀ j, j < n →
          e.connectOk (i + 1 + j) = false ∧ e.exitedBy (i + 1 + j) = false := by
        intro j hjn
        have hj2 := hj (j + 1) (by omega)
        rw [show i + (j + 1) = i + 1 + j by omega] at hj2
        exact hj2
      simp only [startLoop, h0.1, h0.2]
      simpa using ih (i + 1) hrest
  have hk := key (numPolls e.startupTimeout) 0 (fun j hj => by simpa using h j hj)
  unfold startModel
  rw [hk]
  exact ⟨rfl, rfl, rfl, rfl⟩

/-- **C9, witness.** In an environment where no poll connects, the
subprocess never exits by itself, and SIGTERM is ignored, `start()` times
out, sends SIGTERM then SIGKILL, and leaves no process handle. -/
theorem C9_witness :
    (startModel proxyEnvNoConnect).result = .error timeoutMsg ∧
    (startModel proxyEnvNoConnect).signals = [Sig.term, Sig.kill] ∧
    (startModel proxyEnvNoConnect).processHandle = false ∧
    (startModel proxyEnvNoConnect).running = false :=
  have h := C9_theorem proxyEnvNoConnect (fun _ _ => ⟨rfl, rfl⟩)
  ⟨h.1, h.2.1.trans rfl, h.2.2.1, h.2.2.2⟩

/-- **C10.** The comment stripper does not track string-literal state:
`sanitize "SELECT 'a--b' AS x"` strips from the `--` inside the quoted
literal to the end, returning `isValid = true` with
`sanitizedQuery = "SELECT 'a"`. -/
theorem C10_theorem :
    (sanitize "SELECT 'a--b' AS x").isValid = true ∧
    (sanitize "SELECT 'a--b' AS x").sanitizedQuery = "SELECT 'a" := by
  decide

end MysqlMcp
